import Mathlib

/-!
Verification of the wxLanesBridge module (src/src/wxLanesBridge.cpp).

The module exposes three Lua entry points:
  init      (stores a process-wide event id into the static s_defaultEventID),
  getPointer (extracts the first machine word of a userdata block), and
  postEvent (builds a wxThreadEvent from an optional payload table and
             enqueues it at a target window address).

We embed the Lua values the bridge can observe, the process-wide bridge
state, and the three functions.  Machine memory is modelled as a total map
from addresses to machine words, addresses being natural numbers with 0 as
the null pointer.  Machine integer casts are modelled by explicit wrapping:
wxEventType and int are 32-bit, long and lua_Integer are 64-bit (LP64, as
on the Linux targets of this module).
-/

namespace WxLanesBridge

/-- Lua values as the bridge can observe them through the C API.
A full userdata value carries the address of its userdata block (the Lua VM
guarantees this block address is non-null); a light userdata carries the raw
pointer value itself.  Tables are association lists of string keys (the
bridge only reads string fields). -/
inductive LuaValue where
  | nil
  | boolean (b : Bool)
  | number (n : Int)
  | str (s : String)
  | lightuserdata (addr : Nat)
  | userdata (blockAddr : Nat)
  | table (fields : List (String × LuaValue))

/-- Wrap an integer into the signed 32-bit range, as a C cast to int does. -/
def toInt32 (n : Int) : Int :=
  (n + 2 ^ 31) % 2 ^ 32 - 2 ^ 31

/-- Wrap an integer into the signed 64-bit range, as a C cast to long does
on LP64 platforms. -/
def toInt64 (n : Int) : Int :=
  (n + 2 ^ 63) % 2 ^ 64 - 2 ^ 63

/-- Modelled from the Lua C API (an external collaborator of this module):
the decimal-integer fragment of the string-to-number coercion used by
lua_isnumber / lua_tointeger / luaL_checkinteger.  An optional sign followed
by at least one decimal digit converts; anything else does not. -/
def readDecDigits : List Char → Nat → Option Nat
  | [], acc => some acc
  | c :: rest, acc =>
      if c.isDigit then readDecDigits rest (10 * acc + (c.toNat - 48)) else none

/-- Modelled from the Lua C API: string-to-integer coercion (see
readDecDigits). -/
def luaStrToInt (s : String) : Option Int :=
  match s.data with
  | [] => none
  | c :: rest =>
      if c = '-' then
        if rest.isEmpty then none
        else Option.map (fun n => -(n : Int)) (readDecDigits rest 0)
      else if c = '+' then
        if rest.isEmpty then none
        else Option.map (fun n => (n : Int)) (readDecDigits rest 0)
      else Option.map (fun n => (n : Int)) (readDecDigits (c :: rest) 0)

/-- Modelled from the Lua C API: lua_isuserdata is true for full and light
userdata. -/
def lua_isuserdata : LuaValue → Bool
  | .userdata _ => true
  | .lightuserdata _ => true
  | _ => false

/-- Modelled from the Lua C API: lua_islightuserdata. -/
def lua_islightuserdata : LuaValue → Bool
  | .lightuserdata _ => true
  | _ => false

/-- Modelled from the Lua C API: lua_istable. -/
def lua_istable : LuaValue → Bool
  | .table _ => true
  | _ => false

/-- Modelled from the Lua C API: lua_touserdata returns the block address of
a full userdata, the pointer value of a light userdata, and null otherwise. -/
def lua_touserdata : LuaValue → Nat
  | .userdata b => b
  | .lightuserdata a => a
  | _ => 0

/-- Modelled from the Lua C API: lua_isstring is true for strings and for
numbers (which coerce to strings). -/
def lua_isstring : LuaValue → Bool
  | .str _ => true
  | .number _ => true
  | _ => false

/-- Modelled from the Lua C API: lua_isnumber is true for numbers and for
strings that convert to a number. -/
def lua_isnumber : LuaValue → Bool
  | .number _ => true
  | .str s => (luaStrToInt s).isSome
  | _ => false

/-- Modelled from the Lua C API: lua_tostring on a value satisfying
lua_isstring (a string, or a number rendered in decimal). -/
def lua_tostring : LuaValue → String
  | .str s => s
  | .number n => toString n
  | _ => ""

/-- Modelled from the Lua C API: lua_tointeger on a value satisfying
lua_isnumber; values that do not convert give 0. -/
def lua_tointeger : LuaValue → Int
  | .number n => n
  | .str s => (luaStrToInt s).getD 0
  | _ => 0

/-- Modelled from the Lua C API: luaL_checkinteger accepts an integer or a
string converting to one, and raises an argument error otherwise (none). -/
def luaL_checkinteger : LuaValue → Option Int
  | .number n => some n
  | .str s => luaStrToInt s
  | _ => none

/-- Modelled from the Lua C API: lua_getfield on a table, reading a string
key; a missing key reads as nil.  Real Lua tables have unique keys, so the
first match of the association list is the field value. -/
def lookupField : List (String × LuaValue) → String → LuaValue
  | [], _ => .nil
  | (k, v) :: rest, key => if k = key then v else lookupField rest key

/-- Argument number n (1-based, as on the Lua stack); an index beyond the
supplied arguments reads as nil, matching how the type predicates treat a
missing stack slot. -/
def argN (args : List LuaValue) (n : Nat) : LuaValue :=
  args.getD (n - 1) .nil

/-- The wxWidgets sentinel id: s_defaultEventID is declared as wxID_ANY
(source line 56), which is -1. -/
def wxID_ANY : Int := -1

/-- The process-wide shared state of the bridge: the single static scalar
s_defaultEventID (source line 56). -/
structure BridgeState where
  s_defaultEventID : Int
deriving DecidableEq, Repr

/-- The state at process start: s_defaultEventID = wxID_ANY (source line 56). -/
def startState : BridgeState := { s_defaultEventID := wxID_ANY }

/-- A wxThreadEvent as the bridge builds it: event type, window id, and the
three payload fields settable through SetString / SetInt / SetExtraLong.
Fresh events carry the wxWidgets defaults: empty string, int 0, long 0. -/
structure WxThreadEvent where
  eventType : Int
  winid : Int
  string : String
  intCommand : Int
  extraLong : Int
deriving DecidableEq, Repr

/-- The event constructed at source line 198:
wxThreadEvent event(s_defaultEventID, wxID_ANY). -/
def freshEvent (etype : Int) : WxThreadEvent :=
  { eventType := etype, winid := wxID_ANY, string := "", intCommand := 0,
    extraLong := 0 }

/-- Translation of init (source lines 87-107).  luaL_checkinteger raises a
caller-visible error before anything is stored; on success the checked
integer is cast to wxEventType (a 32-bit int) and stored, unconditionally
overwriting the prior value.  The pushing of the module table back to Lua
(lines 95-106) is VM plumbing with no effect on bridge state and is not
modelled. -/
def init (st : BridgeState) (arg : LuaValue) : Except String BridgeState :=
  match luaL_checkinteger arg with
  | none => .error "bad argument #1 to init (number expected)"
  | some n =>
      let _ := st
      .ok { s_defaultEventID := toInt32 n }

/-- Translation of getPointer (source lines 126-143).  A returned value of
none models the zero-result (nil) outcome; some v models pushing v.  mem
maps each machine address to the machine word stored there, so for a
non-null userdata address ud the pushed light userdata is mem ud, the
dereference at source line 138. -/
def getPointer (mem : Nat → Nat) (st : BridgeState) (arg : LuaValue) :
    Except String (Option LuaValue) :=
  if st.s_defaultEventID = wxID_ANY then
    .error "wxLanesBridge must be initialized before use."
  else if lua_isuserdata arg then
    let ud := lua_touserdata arg
    if ud ≠ 0 then
      .ok (some (.lightuserdata (mem ud)))
    else
      .ok none
  else
    .ok none

/-- Translation of the payload-table reads of postEvent (source lines
206-227): field s is taken when lua_isstring holds, fields i and l when
lua_isnumber holds; ill-typed or missing fields leave the event field at
its default; SetInt casts to int and SetExtraLong to long. -/
def applyPayload (fields : List (String × LuaValue)) (ev : WxThreadEvent) :
    WxThreadEvent :=
  let fs := lookupField fields "s"
  let ev1 := if lua_isstring fs then { ev with string := lua_tostring fs } else ev
  let fi := lookupField fields "i"
  let ev2 :=
    if lua_isnumber fi then { ev1 with intCommand := toInt32 (lua_tointeger fi) }
    else ev1
  let fl := lookupField fields "l"
  if lua_isnumber fl then { ev2 with extraLong := toInt64 (lua_tointeger fl) }
  else ev2

/-- Translation of postEvent (source lines 171-232).  The result ok none
models returning with no event enqueued; ok (some (w, ev)) models handing
exactly one event ev to wxPostEvent addressed at window address w (source
line 229). -/
def postEvent (st : BridgeState) (args : List LuaValue) :
    Except String (Option (Nat × WxThreadEvent)) :=
  let numArgs := args.length
  if numArgs < 1 ∨ 2 < numArgs then
    .error "wxLanesBridge: Wrong argument count."
  else if st.s_defaultEventID = wxID_ANY then
    .error "wxLanesBridge: Error - Call init() before postEvent()."
  else if ¬ lua_islightuserdata (argN args 1) then
    .error "wxLanesBridge: Argument 1 must be lightuserdata (e.g. a wxWindow pointer)"
  else if numArgs = 2 ∧ ¬ lua_istable (argN args 2) then
    .error "wxLanesBridge: Optional argument 2 must be a table."
  else
    let win := lua_touserdata (argN args 1)
    if win = 0 then
      .ok none
    else
      let ev0 := freshEvent st.s_defaultEventID
      let ev :=
        match argN args 2 with
        | .table fields => applyPayload fields ev0
        | _ => ev0
      .ok (some (win, ev))

/-- An observable call to the module, for reasoning about call sequences. -/
inductive BridgeOp where
  | opInit (arg : LuaValue)
  | opGetPointer (arg : LuaValue)
  | opPostEvent (args : List LuaValue)

/-- State transition of one call.  init is the only entry point that writes
s_defaultEventID (the assignment at source line 91); luaL_checkinteger
raises its error before that assignment, so a failing init leaves the state
unchanged.  getPointer and postEvent never write the shared scalar. -/
def stepBridge (st : BridgeState) (op : BridgeOp) : BridgeState :=
  match op with
  | .opInit arg =>
      match init st arg with
      | .ok st2 => st2
      | .error _ => st
  | .opGetPointer _ => st
  | .opPostEvent _ => st

/-- State after a sequence of calls. -/
def runBridge (st : BridgeState) (ops : List BridgeOp) : BridgeState :=
  ops.foldl stepBridge st

/-- The module is in its Initialized state when the stored id differs from
the sentinel (the gating condition at source lines 127 and 179). -/
def isReady (st : BridgeState) : Prop :=
  st.s_defaultEventID ≠ wxID_ANY

/-- True when the call is not an init call. -/
def notInit : BridgeOp → Bool
  | .opInit _ => false
  | _ => true

/-- True when the call cannot store the sentinel: either it is not an init
call, or its argument checks to an integer whose 32-bit truncation is not
wxID_ANY. -/
def keepsReady : BridgeOp → Bool
  | .opInit arg =>
      match luaL_checkinteger arg with
      | some n => decide (toInt32 n ≠ wxID_ANY)
      | none => true
  | _ => true

instance (st : BridgeState) : Decidable (isReady st) :=
  inferInstanceAs (Decidable (st.s_defaultEventID ≠ wxID_ANY))

/-- A sequence of calls that contains no init call leaves the bridge state
untouched. -/
theorem runBridge_notInit (ops : List BridgeOp) (st : BridgeState)
    (h : ∀ op ∈ ops, notInit op = true) : runBridge st ops = st := by
  induction ops generalizing st with
  | nil => rfl
  | cons op rest ih =>
      have h1 := h op (List.mem_cons_self _ _)
      have h2 : ∀ o ∈ rest, notInit o = true :=
        fun o ho => h o (List.mem_cons_of_mem _ ho)
      cases op with
      | opInit a => simp [notInit] at h1
      | opGetPointer a => exact ih st h2
      | opPostEvent a => exact ih st h2

/-- The payload table only writes the string, int and long fields; the event
type it was constructed with is kept. -/
theorem applyPayload_eventType (t : List (String × LuaValue))
    (ev : WxThreadEvent) : (applyPayload t ev).eventType = ev.eventType := by
  simp only [applyPayload]
  split_ifs <;> rfl

/-- Happy path of postEvent with one argument: after the checks pass, a null
target returns without an event and a non-null target enqueues the fresh
default event. -/
theorem postEvent_ready_one (st : BridgeState) (tgt : Nat)
    (h : st.s_defaultEventID ≠ wxID_ANY) :
    postEvent st [.lightuserdata tgt] =
      if tgt = 0 then .ok none
      else .ok (some (tgt, freshEvent st.s_defaultEventID)) := by
  simp [postEvent, argN, lua_islightuserdata, lua_istable, lua_touserdata, h]

/-- Happy path of postEvent with a payload table: after the checks pass, a
null target returns without an event and a non-null target enqueues the
fresh event updated by the payload. -/
theorem postEvent_ready_two (st : BridgeState) (tgt : Nat)
    (t : List (String × LuaValue)) (h : st.s_defaultEventID ≠ wxID_ANY) :
    postEvent st [.lightuserdata tgt, .table t] =
      if tgt = 0 then .ok none
      else .ok (some (tgt, applyPayload t (freshEvent st.s_defaultEventID))) := by
  simp [postEvent, argN, lua_islightuserdata, lua_istable, lua_touserdata, h]

/-- C5: postEvent called after configure with a null target address and
otherwise valid arguments (with or without a payload table) returns ok with
no event enqueued and raises no error. -/
theorem C5_null_target_noop (st : BridgeState) (t : List (String × LuaValue))
    (h : isReady st) :
    postEvent st [.lightuserdata 0] = .ok none ∧
    postEvent st [.lightuserdata 0, .table t] = .ok none := by
  have h2 : st.s_defaultEventID ≠ wxID_ANY := h
  constructor
  · rw [postEvent_ready_one st 0 h2]; simp
  · rw [postEvent_ready_two st 0 t h2]; simp

/-- Witness for C5 at a concrete configured state and empty payload table. -/
theorem C5_null_target_noop_witness :
    postEvent { s_defaultEventID := 7 } [.lightuserdata 0] = .ok none ∧
    postEvent { s_defaultEventID := 7 } [.lightuserdata 0, .table []] =
      .ok none :=
  C5_null_target_noop { s_defaultEventID := 7 } [] (by decide)

/-- C6: field selectivity of the payload.  With payload fields s = "hello"
and l = 42 and no i, the enqueued event has string "hello", long 42 and the
default int 0; with payload field i = "not-a-number" every field keeps its
default and no error is raised; a field under any key other than s, i, l is
ignored. -/
theorem C6_field_selectivity (st : BridgeState) (tgt : Nat) (k : String)
    (v : LuaValue) (fields : List (String × LuaValue))
    (hready : isReady st) (htgt : tgt ≠ 0)
    (hs : k ≠ "s") (hi : k ≠ "i") (hl : k ≠ "l") :
    postEvent st [.lightuserdata tgt,
        .table [("s", .str "hello"), ("l", .number 42)]] =
      .ok (some (tgt,
        { eventType := st.s_defaultEventID, winid := wxID_ANY,
          string := "hello", intCommand := 0, extraLong := 42 })) ∧
    postEvent st [.lightuserdata tgt, .table [("i", .str "not-a-number")]] =
      .ok (some (tgt, freshEvent st.s_defaultEventID)) ∧
    applyPayload ((k, v) :: fields) (freshEvent st.s_defaultEventID) =
      applyPayload fields (freshEvent st.s_defaultEventID) := by
  have h2 : st.s_defaultEventID ≠ wxID_ANY := hready
  refine ⟨?_, ?_, ?_⟩
  · rw [postEvent_ready_two st tgt _ h2, if_neg htgt]
    rfl
  · rw [postEvent_ready_two st tgt _ h2, if_neg htgt]
    rfl
  · simp [applyPayload, lookupField, hs, hi, hl]

/-- Witness for C6 at a concrete configured state, target 5 and the
unrecognized key "x". -/
theorem C6_field_selectivity_witness :
    postEvent { s_defaultEventID := 7 } [.lightuserdata 5,
        .table [("s", .str "hello"), ("l", .number 42)]] =
      .ok (some (5,
        { eventType := 7, winid := wxID_ANY, string := "hello",
          intCommand := 0, extraLong := 42 })) ∧
    postEvent { s_defaultEventID := 7 } [.lightuserdata 5,
        .table [("i", .str "not-a-number")]] =
      .ok (some (5, freshEvent 7)) ∧
    applyPayload [("x", .nil)] (freshEvent 7) = applyPayload [] (freshEvent 7) :=
  C6_field_selectivity { s_defaultEventID := 7 } 5 "x" .nil []
    (by decide) (by decide) (by decide) (by decide) (by decide)

/-- C9 fails as stated: the stored identifier is the checked integer cast to
the 32-bit wxEventType, so configure(0) followed by configure(2 ^ 32) leaves
the stored identifier 0, which differs from the second argument 2 ^ 32. -/
theorem C9_counterexample :
    init startState (.number 0) = .ok { s_defaultEventID := 0 } ∧
    init { s_defaultEventID := 0 } (.number (2 ^ 32)) =
      .ok { s_defaultEventID := 0 } ∧
    (0 : Int) ≠ 2 ^ 32 :=
  ⟨rfl, rfl, by decide⟩

/-- C9 amended: configure(a) then configure(b) stores the 32-bit truncation
of b, independently of a, and the same state as configure(b) alone; the
stored identifier equals b itself whenever b fits in a 32-bit int. -/
theorem C9_amended_overwrite (st stA stB stB2 : BridgeState) (a b : Int)
    (_hA : init st (.number a) = .ok stA)
    (hB : init stA (.number b) = .ok stB)
    (hB2 : init st (.number b) = .ok stB2) :
    stB.s_defaultEventID = toInt32 b ∧ stB = stB2 ∧
    (-2 ^ 31 ≤ b → b < 2 ^ 31 → stB.s_defaultEventID = b) := by
  simp only [init, luaL_checkinteger, Except.ok.injEq] at hB hB2
  refine ⟨by rw [← hB], by rw [← hB, ← hB2], ?_⟩
  intro hlo hhi
  rw [← hB]
  simp only [toInt32]
  omega

/-- Witness for C9 amended at a = 1, b = 2. -/
theorem C9_amended_overwrite_witness :
    ({ s_defaultEventID := 2 } : BridgeState).s_defaultEventID = toInt32 2 ∧
    ({ s_defaultEventID := 2 } : BridgeState) =
      ({ s_defaultEventID := 2 } : BridgeState) ∧
    (-2 ^ 31 ≤ (2 : Int) → (2 : Int) < 2 ^ 31 →
      ({ s_defaultEventID := 2 } : BridgeState).s_defaultEventID = 2) :=
  C9_amended_overwrite startState { s_defaultEventID := 1 }
    { s_defaultEventID := 2 } { s_defaultEventID := 2 } 1 2 rfl rfl rfl

/-- C10: a configure call whose argument is not an integer and not
convertible to one raises the argument error and leaves the stored
identifier unchanged (the check runs before the store). -/
theorem C10_failed_init_keeps_state (st : BridgeState) (v : LuaValue)
    (h : luaL_checkinteger v = none) :
    init st v = .error "bad argument #1 to init (number expected)" ∧
    stepBridge st (.opInit v) = st := by
  constructor
  · simp [init, h]
  · simp [stepBridge, init, h]

/-- Witness for C10 at a boolean argument and a configured state. -/
theorem C10_failed_init_keeps_state_witness :
    init { s_defaultEventID := 7 } (.boolean true) =
      .error "bad argument #1 to init (number expected)" ∧
    stepBridge { s_defaultEventID := 7 } (.opInit (.boolean true)) =
      { s_defaultEventID := 7 } :=
  C10_failed_init_keeps_state { s_defaultEventID := 7 } (.boolean true) rfl

/-- C1 fails as stated: in a configured state, a wrapper (full userdata at
block address 1) whose first machine word is the null address 0 does not
yield the absent result; getPointer pushes the null address as a present
light userdata, because the source checks the userdata block address, not
the dereferenced word. -/
theorem C1_counterexample :
    getPointer (fun _ => 0) { s_defaultEventID := 7 } (.userdata 1) =
      .ok (some (.lightuserdata 0)) ∧
    getPointer (fun _ => 0) { s_defaultEventID := 7 } (.userdata 1) ≠
      .ok none := by
  refine ⟨rfl, fun h => ?_⟩
  rw [show getPointer (fun _ => 0) { s_defaultEventID := 7 } (.userdata 1) =
      .ok (some (.lightuserdata 0)) from rfl] at h
  simpa using Except.ok.inj h

/-- C1 amended: after configure, getPointer returns absent exactly when the
argument is not a userdata value or the VM yields the null block address for
it (the null light userdata); no error is raised in either case.  A wrapper
at a non-null block address always yields a present light userdata holding
its first machine word, even when that word is the null address. -/
theorem C1_amended_absent_rule (mem : Nat → Nat) (st : BridgeState)
    (arg : LuaValue) (b : Nat) (hready : isReady st) :
    (lua_isuserdata arg = false → getPointer mem st arg = .ok none) ∧
    (lua_touserdata arg = 0 → getPointer mem st arg = .ok none) ∧
    (b ≠ 0 → getPointer mem st (.userdata b) =
      .ok (some (.lightuserdata (mem b)))) := by
  have h2 : st.s_defaultEventID ≠ wxID_ANY := hready
  refine ⟨fun hu => ?_, fun h0 => ?_, fun hb => ?_⟩
  · simp [getPointer, h2, hu]
  · simp [getPointer, h2, h0]
  · simp [getPointer, h2, lua_isuserdata, lua_touserdata, hb]

/-- Witness for C1 amended: a string argument and the null light userdata
give absent; the wrapper at block 1 over a zeroed memory gives the present
null light userdata. -/
theorem C1_amended_absent_rule_witness :
    getPointer (fun _ => 0) { s_defaultEventID := 7 } (.str "x") = .ok none ∧
    getPointer (fun _ => 0) { s_defaultEventID := 7 } (.lightuserdata 0) =
      .ok none ∧
    getPointer (fun _ => 0) { s_defaultEventID := 7 } (.userdata 1) =
      .ok (some (.lightuserdata 0)) :=
  ⟨(C1_amended_absent_rule (fun _ => 0) { s_defaultEventID := 7 }
      (.str "x") 1 (by decide)).1 rfl,
   (C1_amended_absent_rule (fun _ => 0) { s_defaultEventID := 7 }
      (.lightuserdata 0) 1 (by decide)).2.1 rfl,
   (C1_amended_absent_rule (fun _ => 0) { s_defaultEventID := 7 }
      (.str "x") 1 (by decide)).2.2 (by decide)⟩

/-- C4 fails in its second half: a non-null light userdata is not a wrapper
object, yet getPointer does not return absent for it; lua_touserdata hands
back the raw pointer value 8 and the code dereferences it, returning the
machine word stored there (3 in this memory). -/
theorem C4_counterexample :
    getPointer (fun _ => 3) { s_defaultEventID := 7 } (.lightuserdata 8) =
      .ok (some (.lightuserdata 3)) ∧
    getPointer (fun _ => 3) { s_defaultEventID := 7 } (.lightuserdata 8) ≠
      .ok none := by
  refine ⟨rfl, fun h => ?_⟩
  rw [show getPointer (fun _ => 3) { s_defaultEventID := 7 } (.lightuserdata 8) =
      .ok (some (.lightuserdata 3)) from rfl] at h
  simpa using Except.ok.inj h

/-- C4 amended: after configure, a wrapper whose first machine word holds
address x yields exactly x as a present light userdata; an argument that is
not userdata at all, and the null light userdata, yield absent; a non-null
light userdata argument is treated like a wrapper block and yields the
machine word stored at its address. -/
theorem C4_amended_roundtrip (mem : Nat → Nat) (st : BridgeState)
    (arg : LuaValue) (b x a : Nat) (hready : isReady st) :
    (b ≠ 0 → mem b = x →
      getPointer mem st (.userdata b) = .ok (some (.lightuserdata x))) ∧
    (lua_isuserdata arg = false → getPointer mem st arg = .ok none) ∧
    (getPointer mem st (.lightuserdata 0) = .ok none) ∧
    (a ≠ 0 → getPointer mem st (.lightuserdata a) =
      .ok (some (.lightuserdata (mem a)))) := by
  have h2 : st.s_defaultEventID ≠ wxID_ANY := hready
  refine ⟨fun hb hx => ?_, fun hu => ?_, ?_, fun ha => ?_⟩
  · simp [getPointer, h2, lua_isuserdata, lua_touserdata, hb, hx]
  · simp [getPointer, h2, hu]
  · simp [getPointer, h2, lua_isuserdata, lua_touserdata]
  · simp [getPointer, h2, lua_isuserdata, lua_touserdata, ha]

/-- Witness for C4 amended: memory holding 43981 at every word, wrapper at
block 2 yields 43981; a number argument yields absent; the null light
userdata yields absent; light userdata 8 yields the stored word 43981. -/
theorem C4_amended_roundtrip_witness :
    getPointer (fun _ => 43981) { s_defaultEventID := 7 } (.userdata 2) =
      .ok (some (.lightuserdata 43981)) ∧
    getPointer (fun _ => 43981) { s_defaultEventID := 7 } (.number 9) =
      .ok none ∧
    getPointer (fun _ => 43981) { s_defaultEventID := 7 } (.lightuserdata 0) =
      .ok none ∧
    getPointer (fun _ => 43981) { s_defaultEventID := 7 } (.lightuserdata 8) =
      .ok (some (.lightuserdata 43981)) :=
  ⟨(C4_amended_roundtrip (fun _ => 43981) { s_defaultEventID := 7 }
      (.number 9) 2 43981 8 (by decide)).1 (by decide) rfl,
   (C4_amended_roundtrip (fun _ => 43981) { s_defaultEventID := 7 }
      (.number 9) 2 43981 8 (by decide)).2.1 rfl,
   (C4_amended_roundtrip (fun _ => 43981) { s_defaultEventID := 7 }
      (.number 9) 2 43981 8 (by decide)).2.2.1,
   (C4_amended_roundtrip (fun _ => 43981) { s_defaultEventID := 7 }
      (.number 9) 2 43981 8 (by decide)).2.2.2 (by decide)⟩

/-- C7 fails as stated: the uninitialized check runs before the argument
type checks, so in the uninitialized state a call with argument 1 not light
userdata fails with the uninitialized-use error, not the type error. -/
theorem C7_counterexample :
    postEvent startState [.nil] =
      .error "wxLanesBridge: Error - Call init() before postEvent()." ∧
    postEvent startState [.nil] ≠
      .error "wxLanesBridge: Argument 1 must be lightuserdata (e.g. a wxWindow pointer)" := by
  refine ⟨rfl, fun h => ?_⟩
  rw [show postEvent startState [.nil] =
      .error "wxLanesBridge: Error - Call init() before postEvent()." from rfl] at h
  exact absurd (Except.error.inj h) (by decide)

/-- C7 amended: the argument-count error is raised in every state (that
check runs first); after configure, a call with 1 or 2 arguments whose first
argument is not light userdata fails with the argument 1 type error, and a
call with 2 arguments whose first is light userdata and whose second is not
a table fails with the argument 2 type error; the three messages are
pairwise distinct fatal errors raised at the call site. -/
theorem C7_amended_validation (st0 st : BridgeState)
    (args0 args1 args2 : List LuaValue)
    (h0 : args0.length = 0 ∨ 3 ≤ args0.length)
    (hready : isReady st)
    (h1len : args1.length = 1 ∨ args1.length = 2)
    (h1a : lua_islightuserdata (argN args1 1) = false)
    (h2len : args2.length = 2)
    (h2a : lua_islightuserdata (argN args2 1) = true)
    (h2t : lua_istable (argN args2 2) = false) :
    postEvent st0 args0 = .error "wxLanesBridge: Wrong argument count." ∧
    postEvent st args1 =
      .error "wxLanesBridge: Argument 1 must be lightuserdata (e.g. a wxWindow pointer)" ∧
    postEvent st args2 =
      .error "wxLanesBridge: Optional argument 2 must be a table." := by
  have hr : st.s_defaultEventID ≠ wxID_ANY := hready
  refine ⟨?_, ?_, ?_⟩
  · have hc : args0.length < 1 ∨ 2 < args0.length := by
      rcases h0 with h | h
      · left; omega
      · right; omega
    simp only [postEvent]
    rw [if_pos hc]
  · have hc : ¬ (args1.length < 1 ∨ 2 < args1.length) := by
      rcases h1len with h | h <;> omega
    simp only [postEvent]
    rw [if_neg hc, if_neg hr, if_pos (by simp [h1a])]
  · have hc : ¬ (args2.length < 1 ∨ 2 < args2.length) := by omega
    simp only [postEvent]
    rw [if_neg hc, if_neg hr, if_neg (by simp [h2a]),
      if_pos (And.intro h2len (by simp [h2t]))]

/-- Witness for C7 amended: empty argument list, a nil first argument after
configure, and a light userdata plus nil pair after configure. -/
theorem C7_amended_validation_witness :
    postEvent startState [] = .error "wxLanesBridge: Wrong argument count." ∧
    postEvent { s_defaultEventID := 7 } [.nil] =
      .error "wxLanesBridge: Argument 1 must be lightuserdata (e.g. a wxWindow pointer)" ∧
    postEvent { s_defaultEventID := 7 } [.lightuserdata 1, .nil] =
      .error "wxLanesBridge: Optional argument 2 must be a table." :=
  C7_amended_validation startState { s_defaultEventID := 7 }
    [] [.nil] [.lightuserdata 1, .nil]
    (by decide) (by decide) (by decide) (by decide) (by decide) (by decide)
    (by decide)

/-- C2 fails as stated: configure accepts the sentinel value -1 (wxID_ANY)
as an ordinary integer argument, and storing it leaves the module in the
very state it started in, so a getPointer call with a valid wrapper after
that configure call still fails with the uninitialized-use error.  Also, a
postEvent call with a wrong argument count before configure fails with the
argument-count error, not the uninitialized-use error, because the count
check runs first. -/
theorem C2_counterexample :
    init startState (.number (-1)) = .ok startState ∧
    getPointer (fun _ => 0) startState (.userdata 1) =
      .error "wxLanesBridge must be initialized before use." ∧
    postEvent startState [] = .error "wxLanesBridge: Wrong argument count." :=
  ⟨rfl, rfl, rfl⟩

/-- C2 amended: in any state reachable without a configure call, getPointer
fails with its uninitialized-use error for every argument, and postEvent
with 1 or 2 arguments fails with its uninitialized-use error (a wrong
argument count is reported as the count error instead, since that check runs
first); in any state whose stored identifier is not the sentinel, getPointer
returns ok for every argument and postEvent returns ok for every valid
argument list. -/
theorem C2_amended_gating (mem : Nat → Nat) (st : BridgeState)
    (ops0 : List BridgeOp) (arg arg0 : LuaValue) (args : List LuaValue)
    (tgt : Nat) (t : List (String × LuaValue))
    (hops0 : ∀ op ∈ ops0, notInit op = true)
    (hready : isReady st)
    (hlen : args.length = 1 ∨ args.length = 2) :
    getPointer mem (runBridge startState ops0) arg0 =
      .error "wxLanesBridge must be initialized before use." ∧
    postEvent (runBridge startState ops0) args =
      .error "wxLanesBridge: Error - Call init() before postEvent()." ∧
    (∃ r, getPointer mem st arg = .ok r) ∧
    (∃ r, postEvent st [.lightuserdata tgt] = .ok r) ∧
    (∃ r, postEvent st [.lightuserdata tgt, .table t] = .ok r) := by
  have h2 : st.s_defaultEventID ≠ wxID_ANY := hready
  rw [runBridge_notInit ops0 startState hops0]
  refine ⟨rfl, ?_, ?_, ?_, ?_⟩
  · have hc : ¬ (args.length < 1 ∨ 2 < args.length) := by
      rcases hlen with h | h <;> omega
    simp only [postEvent]
    rw [if_neg hc,
      if_pos (show startState.s_defaultEventID = wxID_ANY from rfl)]
  · cases arg <;>
      simp [getPointer, h2, lua_isuserdata, lua_touserdata] <;>
      split_ifs <;> exact ⟨_, rfl⟩
  · rw [postEvent_ready_one st tgt h2]
    split_ifs <;> exact ⟨_, rfl⟩
  · rw [postEvent_ready_two st tgt t h2]
    split_ifs <;> exact ⟨_, rfl⟩

/-- Witness for C2 amended: one non-init call before configure, then a
configured state with target 5 and an empty payload table. -/
theorem C2_amended_gating_witness :
    getPointer (fun _ => 0) (runBridge startState [.opGetPointer .nil])
      (.userdata 1) = .error "wxLanesBridge must be initialized before use." ∧
    postEvent (runBridge startState [.opGetPointer .nil]) [.nil] =
      .error "wxLanesBridge: Error - Call init() before postEvent()." ∧
    (∃ r, getPointer (fun _ => 0) { s_defaultEventID := 7 } (.userdata 1) =
      .ok r) ∧
    (∃ r, postEvent { s_defaultEventID := 7 } [.lightuserdata 5] = .ok r) ∧
    (∃ r, postEvent { s_defaultEventID := 7 }
      [.lightuserdata 5, .table []] = .ok r) :=
  C2_amended_gating (fun _ => 0) { s_defaultEventID := 7 }
    [.opGetPointer .nil] (.userdata 1) (.userdata 1) [.nil] 5 []
    (by decide) (by decide) (Or.inl (by decide))

/-- C3 fails as stated: configure(7) puts the module into the Initialized
state, but a second configure call with the sentinel -1 stores wxID_ANY
again and the module is back in the Uninitialized state, so the transition
is not one-way under arbitrary operation sequences. -/
theorem C3_counterexample :
    isReady (runBridge startState [.opInit (.number 7)]) ∧
    ¬ isReady (runBridge startState
      [.opInit (.number 7), .opInit (.number (-1))]) := by
  constructor <;> decide

/-- C3 amended: for every sequence of operations in which no configure call
stores the sentinel (every init argument either fails the integer check or
checks to an integer whose 32-bit truncation differs from wxID_ANY), once
the module is Initialized it stays Initialized. -/
theorem C3_amended_oneway (ops : List BridgeOp) :
    ∀ st : BridgeState, (∀ op ∈ ops, keepsReady op = true) →
      isReady st → isReady (runBridge st ops) := by
  induction ops with
  | nil => exact fun st _ hst => hst
  | cons op rest ih =>
      intro st hops hst
      have h1 := hops op (List.mem_cons_self _ _)
      have h2 : ∀ o ∈ rest, keepsReady o = true :=
        fun o ho => hops o (List.mem_cons_of_mem _ ho)
      have hstep : isReady (stepBridge st op) := by
        cases op with
        | opInit arg =>
            cases hc : luaL_checkinteger arg with
            | none => simpa [stepBridge, init, hc] using hst
            | some n =>
                simp only [keepsReady, hc] at h1
                simp only [stepBridge, init, hc]
                exact of_decide_eq_true h1
        | opGetPointer a => exact hst
        | opPostEvent a => exact hst
      exact ih (stepBridge st op) h2 hstep

/-- Witness for C3 amended: a configured state stays Initialized across a
further configure(9) and a getPointer call. -/
theorem C3_amended_oneway_witness :
    isReady (runBridge { s_defaultEventID := 7 }
      [.opInit (.number 9), .opGetPointer .nil]) :=
  C3_amended_oneway [.opInit (.number 9), .opGetPointer .nil]
    { s_defaultEventID := 7 } (by decide) (by decide)

/-- A postEvent call that reports an enqueued event tagged it with the
stored identifier of the state it ran in. -/
theorem postEvent_some_eventType (st : BridgeState) (args : List LuaValue)
    (tgt : Nat) (ev : WxThreadEvent)
    (h : postEvent st args = .ok (some (tgt, ev))) :
    ev.eventType = st.s_defaultEventID := by
  simp only [postEvent] at h
  split_ifs at h <;>
    first
    | exact Except.noConfusion h
    | exact Option.noConfusion (Except.ok.inj h)
    | (simp only [Except.ok.injEq, Option.some.injEq, Prod.mk.injEq] at h
       obtain ⟨h1, h2⟩ := h
       subst h2
       cases argN args 2 <;> simp [applyPayload_eventType, freshEvent])

/-- C8: after a successful configure and any further operations that are not
configure calls, a postEvent call that succeeds with a non-null target (the
model returns some of exactly one target-event pair, matching the single
wxPostEvent call in the code) tags the one enqueued event with the stored
identifier of that configure call; when the configure argument checked to
the integer n, that tag is the stored 32-bit truncation of n. -/
theorem C8_event_kind_from_configure (st0 st1 : BridgeState)
    (arg : LuaValue) (ops : List BridgeOp) (args : List LuaValue)
    (tgt : Nat) (ev : WxThreadEvent) (n : Int)
    (hinit : init st0 arg = .ok st1)
    (hops : ∀ op ∈ ops, notInit op = true)
    (hpost : postEvent (runBridge st1 ops) args = .ok (some (tgt, ev))) :
    ev.eventType = st1.s_defaultEventID ∧
    (luaL_checkinteger arg = some n → ev.eventType = toInt32 n) := by
  rw [runBridge_notInit ops st1 hops] at hpost
  have he := postEvent_some_eventType st1 args tgt ev hpost
  refine ⟨he, fun hc => ?_⟩
  simp only [init, hc, Except.ok.injEq] at hinit
  rw [he, ← hinit]

/-- Witness for C8: configure(7), one getPointer call, then postEvent at
target 5 without a payload; the enqueued event has kind 7. -/
theorem C8_event_kind_from_configure_witness :
    (freshEvent 7).eventType =
      ({ s_defaultEventID := 7 } : BridgeState).s_defaultEventID ∧
    (luaL_checkinteger (.number 7) = some 7 →
      (freshEvent 7).eventType = toInt32 7) :=
  C8_event_kind_from_configure startState { s_defaultEventID := 7 }
    (.number 7) [.opGetPointer .nil] [.lightuserdata 5] 5 (freshEvent 7) 7
    rfl (by decide) rfl

end WxLanesBridge
